import Mathlib

/-!
Verification development for the desktop voice-pipeline repository.

The Python modules under `python/asr` and `python/tts` are shallowly
embedded as executable Lean definitions: strings are Lean `String`s,
Python floats (timestamps, confidences) are exact rationals `ℚ`,
byte strings are `List Nat`, and the external collaborators (decoders,
the synthesis engine, ffmpeg, the completion API's HTTP stream) are
abstracted as explicit parameters or as already-parsed input shapes.
-/

namespace VoicePipeline

/-! ### Python string primitives

Helpers modelling the Python `str` operations used by the source
(`strip`, `split()`, `lower`, `isalpha`, substring containment).
`lower` and `isalpha` are modelled over the character ranges that occur
in this code base (ASCII plus CJK Unified Ideographs). -/

/-- Whitespace characters stripped by Python `str.strip()` / matched by `\s`. -/
def pyIsSpace (c : Char) : Bool :=
  c == ' ' || c == '\t' || c == '\n' || c == '\r' || c == '\x0b' || c == '\x0c'

/-- Model of `str.strip()` on the underlying character list. -/
def pyStripChars (l : List Char) : List Char :=
  ((l.dropWhile pyIsSpace).reverse.dropWhile pyIsSpace).reverse

/-- Model of Python `s.strip()`. -/
def pyStrip (s : String) : String :=
  ⟨pyStripChars s.data⟩

/-- Auxiliary for `pySplit`: the accumulator holds the current word reversed. -/
def pySplitAux : List Char → List Char → List (List Char)
  | [], acc => if acc.isEmpty then [] else [acc.reverse]
  | c :: rest, acc =>
    if pyIsSpace c then
      if acc.isEmpty then pySplitAux rest [] else acc.reverse :: pySplitAux rest []
    else pySplitAux rest (c :: acc)

/-- Model of Python `s.split()` (split on whitespace runs, dropping empties). -/
def pySplit (s : String) : List String :=
  (pySplitAux s.data []).map (fun l => ⟨l⟩)

/-- Model of Python `s.lower()` (ASCII case folding; the non-ASCII characters
appearing in this code base are caseless). -/
def pyLower (s : String) : String :=
  ⟨s.data.map Char.toLower⟩

/-- Model of the per-character Python `str.isalpha` test, over the ranges used
by this repository: ASCII letters and CJK Unified Ideographs. -/
def pyIsAlphaChar (c : Char) : Bool :=
  c.isAlpha || (decide (0x4E00 ≤ c.toNat) && decide (c.toNat ≤ 0x9FFF))

/-- Model of Python `s.isalpha()`: non-empty and every character alphabetic. -/
def pyIsAlpha (s : String) : Bool :=
  !s.data.isEmpty && s.data.all pyIsAlphaChar

/-- Does `hay` start with `needle`? -/
def startsWithSeq : List Char → List Char → Bool
  | [], _ => true
  | _ :: _, [] => false
  | a :: as, b :: bs => a == b && startsWithSeq as bs

/-- Does `needle` occur as a contiguous subsequence of `hay`? -/
def hasSubSeq (needle : List Char) : List Char → Bool
  | [] => needle.isEmpty
  | c :: rest => startsWithSeq needle (c :: rest) || hasSubSeq needle rest

/-- Model of Python `needle in hay` on strings (contiguous substring test). -/
def strContainsSub (hay needle : String) : Bool :=
  hasSubSeq needle.data hay.data

/-! ### Configuration constants (`python/common/config.py`) -/

/-- `ASR_SILENCE_TIMEOUT = 2.0` (seconds). -/
def ASR_SILENCE_TIMEOUT : ℚ := 2

/-- `ASR_MIN_SENTENCE_LENGTH = 2` (characters). -/
def ASR_MIN_SENTENCE_LENGTH : Nat := 2

/-- `ASR_SENTENCE_END_PATTERNS = [r'[。！？]', r'[.!?]']`: each regex is a
character alternation, modelled as the list of characters it matches. -/
def ASR_SENTENCE_END_PATTERNS : List (List Char) :=
  [['。', '！', '？'], ['.', '!', '?']]

/-- `TTS_DEFAULT_VOICE = 'zh-CN-XiaoxiaoNeural'`. -/
def TTS_DEFAULT_VOICE : String := "zh-CN-XiaoxiaoNeural"

/-- `re.search(r'[...]', s)` for a character-alternation pattern: some character
of `s` belongs to the alternation. -/
def containsAnyOf (pat : List Char) (s : String) : Bool :=
  s.data.any (fun c => pat.contains c)

/-! ### Sentence accumulator (`python/asr/sentence_manager.py`)

`SentenceManager` holds the accumulated sentence and the timestamp of the
last update.  `time.time()` is passed in explicitly as `now : ℚ`. -/

/-- State of `SentenceManager` (`current_sentence`, `last_update_time`). -/
structure SentenceManager where
  current_sentence : String
  last_update_time : ℚ
deriving DecidableEq

/-- The concatenation step of `add_text`: append the stripped fragment onto the
buffer with a separating space when the buffer is non-empty. -/
def bufferConcat (buf text : String) : String :=
  if buf ≠ "" then buf ++ " " ++ pyStrip text else pyStrip text

/-- The `for pattern in ASR_SENTENCE_END_PATTERNS` loop of `add_text`: on the
first matching pattern the buffer is cleared and, when the stripped sentence is
long enough, returned; a cleared buffer means later patterns cannot match.
Returns the emitted sentence (if any) and the new buffer. -/
def scanSentenceEnd : List (List Char) → String → Option String × String
  | [], cs => (none, cs)
  | p :: ps, cs =>
    if containsAnyOf p cs then
      let sentence := pyStrip cs
      if ASR_MIN_SENTENCE_LENGTH ≤ sentence.length then (some sentence, "")
      else scanSentenceEnd ps ""
    else scanSentenceEnd ps cs

/-- `SentenceManager.add_text`: returns the updated state and the completed
sentence, if a sentence-end mark was detected and the sentence is long enough. -/
def SentenceManager.add_text (sm : SentenceManager) (text : String) (now : ℚ) :
    SentenceManager × Option String :=
  if text = "" ∨ pyStrip text = "" then (sm, none)
  else
    let cs := bufferConcat sm.current_sentence text
    let scan := scanSentenceEnd ASR_SENTENCE_END_PATTERNS cs
    (⟨scan.2, now⟩, scan.1)

/-- `SentenceManager.check_silence_timeout`: when the buffer is non-empty and
at least `ASR_SILENCE_TIMEOUT` elapsed since the last update, the buffer is
cleared and its stripped contents returned when long enough. -/
def SentenceManager.check_silence_timeout (sm : SentenceManager) (now : ℚ) :
    SentenceManager × Option String :=
  if sm.current_sentence = "" then (sm, none)
  else if ASR_SILENCE_TIMEOUT ≤ now - sm.last_update_time then
    let sentence := pyStrip sm.current_sentence
    if ASR_MIN_SENTENCE_LENGTH ≤ sentence.length then
      (⟨"", sm.last_update_time⟩, some sentence)
    else (⟨"", sm.last_update_time⟩, none)
  else (sm, none)

/-- `SentenceManager.reset`. -/
def SentenceManager.reset (_sm : SentenceManager) (now : ℚ) : SentenceManager :=
  ⟨"", now⟩

/-- Any of the configured sentence-end patterns matches the string. -/
def containsSentenceEnd (s : String) : Bool :=
  ASR_SENTENCE_END_PATTERNS.any (fun p => containsAnyOf p s)

/-! ### Bilingual result merger (`python/asr/result_merger.py`)

A recognition result is a Python dict that may or may not carry the
`text` and `confidence` keys; both are modelled as `Option` fields and
read back with the defaults used by the source (`''` and `0`). -/

/-- A decoder result dict: optional `text` and `confidence` entries. -/
structure RecResult where
  text : Option String
  confidence : Option ℚ
deriving DecidableEq

/-- `common_english_words` from `merge_results`. -/
def COMMON_ENGLISH_WORDS : List String :=
  ["curl", "get", "post", "http", "api", "json", "code", "file", "dir", "cd", "ls", "pwd"]

/-- `merge_results(cn_result, en_result)`.  The marker test is
`word in en_text.lower()`, i.e. contiguous substring containment. -/
def merge_results (cn_result en_result : RecResult) : Option RecResult :=
  let cn_text := pyStrip (cn_result.text.getD "")
  let en_text := pyStrip (en_result.text.getD "")
  let cn_confidence := cn_result.confidence.getD 0
  let en_confidence := en_result.confidence.getD 0
  if cn_text = "" ∧ en_text = "" then none
  else if cn_text = "" then some en_result
  else if en_text = "" then some cn_result
  else
    let has_english_word :=
      COMMON_ENGLISH_WORDS.any (fun word => strContainsSub (pyLower en_text) word)
    if has_english_word = true ∧ en_confidence > cn_confidence * ((7 : ℚ)/10) then
      some en_result
    else if cn_confidence > en_confidence * ((7 : ℚ)/10) then
      some cn_result
    else
      let merged_text :=
        if (pySplit en_text).length ≤ 2 ∧ pyIsAlpha en_text = true then
          (if cn_text ≠ "" then cn_text ++ " " ++ en_text else en_text)
        else
          (if cn_confidence ≥ en_confidence then cn_text else en_text)
      some ⟨some (pyStrip merged_text), some (max cn_confidence en_confidence)⟩

/-- The marker-free part of `merge_results`: identical to `merge_results`
except that the `common_english_words` branch is removed, so only the
confidence rule and the merge rule apply to two non-empty texts.  Used to
express that, on a given input, the marker rule is not what selected the
secondary result. -/
def merge_noMarker (cn_result en_result : RecResult) : Option RecResult :=
  let cn_text := pyStrip (cn_result.text.getD "")
  let en_text := pyStrip (en_result.text.getD "")
  let cn_confidence := cn_result.confidence.getD 0
  let en_confidence := en_result.confidence.getD 0
  if cn_text = "" ∧ en_text = "" then none
  else if cn_text = "" then some en_result
  else if en_text = "" then some cn_result
  else
    if cn_confidence > en_confidence * ((7 : ℚ)/10) then
      some cn_result
    else
      let merged_text :=
        if (pySplit en_text).length ≤ 2 ∧ pyIsAlpha en_text = true then
          (if cn_text ≠ "" then cn_text ++ " " ++ en_text else en_text)
        else
          (if cn_confidence ≥ en_confidence then cn_text else en_text)
      some ⟨some (pyStrip merged_text), some (max cn_confidence en_confidence)⟩

/-! ### Chat dispatcher stream (`python/asr/ai_client.py`, `call_deepseek_api_stream`)

The HTTP 200 success path is modelled as a pure function from the sequence
of SSE response lines to the sequence of events sent over the websocket
(the websocket is taken to stay open, so every `safe_send` succeeds).
Each response line is abstracted by its parse outcome; the JSON decoding
itself is performed by the external `json` library in the source. -/

/-- Parse outcome of one line of the SSE response stream. -/
inductive SseLine
  /-- `line.strip()` is empty: skipped. -/
  | blank
  /-- The line does not start with `data: `: ignored. -/
  | notData
  /-- A `data: ` line whose payload strips to `[DONE]`. -/
  | done
  /-- A `data: ` line whose payload fails to parse as JSON: skipped. -/
  | malformed
  /-- A `data: ` line whose JSON payload contains an `error` key; the field
  carries the extracted error message. -/
  | errorPayload (msg : String)
  /-- A `data: ` line whose JSON payload has no `error` key and an empty
  `choices` list. -/
  | noChoices
  /-- A `data: ` line whose JSON payload yields `choices[0].delta.content`
  (possibly the empty string). -/
  | delta (content : String)
deriving DecidableEq

/-- An event sent to the client by the dispatcher. -/
inductive AiEvent
  /-- `{"type":"ai_response_stream_start","user_input":...}`. -/
  | streamStart (user_input : String)
  /-- `{"type":"ai_response_stream","chunk":...,"accumulated":...}`. -/
  | streamChunk (chunk accumulated : String)
  /-- `{"type":"ai_response_stream_end","full_text":...}`. -/
  | streamEnd_full (full_text : String)
  /-- `{"type":"ai_response_stream_end","error":...}`. -/
  | streamEnd_error (error : String)
deriving DecidableEq

/-- The `async for line in response.aiter_lines()` loop, starting from the
accumulated `buffer`: produces the remaining events of the request. -/
def processLines : List SseLine → String → List AiEvent
  | [], buffer => [AiEvent.streamEnd_full buffer]
  | SseLine.blank :: rest, buffer => processLines rest buffer
  | SseLine.notData :: rest, buffer => processLines rest buffer
  | SseLine.done :: _, buffer => [AiEvent.streamEnd_full buffer]
  | SseLine.malformed :: rest, buffer => processLines rest buffer
  | SseLine.errorPayload msg :: _, _ =>
    [AiEvent.streamEnd_error ("API 错误: " ++ msg)]
  | SseLine.noChoices :: rest, buffer => processLines rest buffer
  | SseLine.delta content :: rest, buffer =>
    if content ≠ "" then
      AiEvent.streamChunk content (buffer ++ content) ::
        processLines rest (buffer ++ content)
    else processLines rest buffer

/-- The whole HTTP 200 path of `call_deepseek_api_stream`: the stream-start
event followed by the events of the line-processing loop (`buffer = ""`). -/
def aiStream (userInput : String) (lines : List SseLine) : List AiEvent :=
  AiEvent.streamStart userInput :: processLines lines ""

/-- The non-empty delta contents that the loop actually consumes: everything
up to (and not including) the first `[DONE]` sentinel. -/
def deltasUpToDone : List SseLine → List String
  | [] => []
  | SseLine.done :: _ => []
  | SseLine.delta content :: rest =>
    if content ≠ "" then content :: deltasUpToDone rest else deltasUpToDone rest
  | _ :: rest => deltasUpToDone rest

/-- Specification-side chunk trace: one chunk event per delta, carrying the
delta and the concatenation of all deltas received so far. -/
def chunkTrace (acc : String) : List String → List AiEvent
  | [] => []
  | d :: ds => AiEvent.streamChunk d (acc ++ d) :: chunkTrace (acc ++ d) ds

/-- Concatenation of a list of deltas onto an accumulator. -/
def concatFrom (acc : String) : List String → String
  | [] => acc
  | d :: ds => concatFrom (acc ++ d) ds

/-- No `error`-carrying line occurs before the stream terminates
(at the first `[DONE]` or at end of input). -/
def noErrorLine : List SseLine → Bool
  | [] => true
  | SseLine.done :: _ => true
  | SseLine.errorPayload _ :: _ => false
  | _ :: rest => noErrorLine rest

/-- Neither a `[DONE]` sentinel nor an `error`-carrying line occurs. -/
def noDoneOrError : List SseLine → Bool
  | [] => true
  | SseLine.done :: _ => false
  | SseLine.errorPayload _ :: _ => false
  | _ :: rest => noDoneOrError rest

/-! ### Text processing (`python/tts/text_processor.py`) -/

/-- The character class `SPECIAL_CHARS_TO_REMOVE`
(`[*#@$%^&_+=\[\]{}|\\:";'<>?./`~]`); codepoints 123, 125, 39 and 96 are
the two braces, the apostrophe and the backquote. -/
def SPECIAL_CHARS_TO_REMOVE : List Char :=
  ['*', '#', '@', '$', '%', '^', '&', '_', '+', '=', '[', ']',
   Char.ofNat 123, Char.ofNat 125, '|', '\\', ':', '"', ';', Char.ofNat 39,
   '<', '>', '?', '.', '/', Char.ofNat 96, '~']

/-- Auxiliary for `re.sub(r'\s+', ' ', ...)`: collapse each maximal run of
whitespace to a single space.  The flag records whether the previous
character was whitespace. -/
def collapseSpacesAux : List Char → Bool → List Char
  | [], _ => []
  | c :: rest, prevSpace =>
    if pyIsSpace c then
      if prevSpace then collapseSpacesAux rest true
      else ' ' :: collapseSpacesAux rest true
    else c :: collapseSpacesAux rest false

/-- `re.sub(r'\s+', ' ', l)`. -/
def collapseSpaces (l : List Char) : List Char :=
  collapseSpacesAux l false

/-- `clean_text`: drop the special characters, collapse whitespace, strip. -/
def clean_text (text : String) : String :=
  pyStrip ⟨collapseSpaces
    (text.data.filter (fun c => !(SPECIAL_CHARS_TO_REMOVE.contains c)))⟩

/-- The codepoint ranges of `EMOJI_PATTERN`. -/
def isEmojiChar (c : Char) : Bool :=
  let n := c.toNat
  decide ((0x1F600 ≤ n ∧ n ≤ 0x1F64F) ∨ (0x1F300 ≤ n ∧ n ≤ 0x1F5FF) ∨
    (0x1F680 ≤ n ∧ n ≤ 0x1F6FF) ∨ (0x1F1E0 ≤ n ∧ n ≤ 0x1F1FF) ∨
    (0x2702 ≤ n ∧ n ≤ 0x27B0) ∨ (0x1F900 ≤ n ∧ n ≤ 0x1F9FF) ∨
    (0x1FA00 ≤ n ∧ n ≤ 0x1FA6F) ∨ (0x1FA70 ≤ n ∧ n ≤ 0x1FAFF) ∨
    (0x2600 ≤ n ∧ n ≤ 0x26FF) ∨ (0x2700 ≤ n ∧ n ≤ 0x27BF) ∨
    (0x1F018 ≤ n ∧ n ≤ 0x1F270))

/-- `remove_emojis`: drop the emoji codepoints, collapse whitespace, strip. -/
def remove_emojis (text : String) : String :=
  pyStrip ⟨collapseSpaces (text.data.filter (fun c => !isEmojiChar c))⟩

/-- The effective `EMOJI_TO_EMOTION` mapping in iteration order: a Python
dict keeps the first-insertion position of a key and its last-assigned
value, so the duplicated keys (🙂, 😐, 😑, 😶 end up `normal`, 😏 ends up
`cunning`, the repeated 🤗 stays `happy`). -/
def EMOJI_TO_EMOTION : List (String × String) :=
  [("😀", "happy"), ("😃", "happy"), ("😄", "happy"), ("😁", "happy"),
   ("😆", "happy"), ("😊", "happy"), ("😍", "happy"), ("🥰", "happy"),
   ("😘", "happy"), ("😗", "happy"), ("😙", "happy"), ("😚", "happy"),
   ("🙂", "normal"), ("🤗", "happy"), ("🤩", "happy"), ("😎", "happy"),
   ("🥳", "happy"), ("😋", "happy"), ("😛", "happy"), ("😜", "happy"),
   ("🤪", "happy"), ("😝", "happy"), ("🤑", "happy"),
   ("😢", "sad"), ("😭", "sad"), ("😤", "sad"), ("😠", "sad"), ("😡", "sad"),
   ("🤬", "sad"), ("😞", "sad"), ("😟", "sad"), ("😕", "sad"), ("🙁", "sad"),
   ("☹️", "sad"), ("😣", "sad"), ("😖", "sad"), ("😫", "sad"), ("😩", "sad"),
   ("🥺", "sad"), ("😦", "sad"), ("😧", "sad"), ("😨", "sad"), ("😰", "sad"),
   ("😥", "sad"), ("😓", "sad"), ("🤕", "sad"), ("🤒", "sad"),
   ("🤔", "thinking"), ("🧐", "thinking"), ("🤓", "thinking"),
   ("🤨", "thinking"), ("😐", "normal"), ("😑", "normal"), ("😶", "normal"),
   ("😏", "cunning"), ("😒", "cunning"), ("🙄", "cunning"), ("😬", "cunning"),
   ("🤥", "cunning"), ("😈", "cunning"), ("👿", "cunning"), ("💀", "cunning")]

/-- `extract_emotion_from_text`: the emotion of the first mapped emoji that
occurs in the text (`emoji in text` is a substring test), else `normal`. -/
def extract_emotion_from_text (text : String) : String :=
  match EMOJI_TO_EMOTION.filter (fun p => strContainsSub text p.1) with
  | [] => "normal"
  | p :: _ => p.2

/-- `process_text`: extract the emotion, remove emojis, clean special
characters. -/
def process_text (text : String) : String × String :=
  let emotion := extract_emotion_from_text text
  let text_without_emoji := remove_emojis text
  let cleaned_text := clean_text text_without_emoji
  (cleaned_text, emotion)

/-! ### TTS streaming pipeline
(`python/tts/server.py` `handle_tts_request`, synthesize branch, and
`python/tts/synthesizer.py` `text_to_speech_edge_stream`)

The Edge-TTS engine and ffmpeg are external collaborators: the engine is
abstracted as the list of compressed audio chunk payloads it yields
(`chunk['data']` for the chunks with `chunk['type'] == 'audio'`), and
ffmpeg as a function `decode` from compressed bytes to raw PCM bytes.
Bytes are modelled as `Nat`s.  The websocket is taken to stay open. -/

/-- `min_buffer_size = 8192` (the 8 KiB decode threshold). -/
def min_buffer_size : Nat := 8192

/-- An event sent to the client by the TTS server for one request. -/
inductive TtsEvent
  /-- `{"type":"error","message":...}`. -/
  | errorMsg (message : String)
  /-- `{"type":"audio_start","voice":...,"emotion":...,"format":...,
  "sample_rate":...,"channels":...,"bits_per_sample":...,"streaming":...}`. -/
  | audioStart (voice emotion format : String)
      (sample_rate channels bits_per_sample : Nat) (streaming : Bool)
  /-- A binary PCM frame, carrying its bytes. -/
  | audioFrame (data : List Nat)
  /-- `{"type":"audio_end","voice":...,"emotion":...,"total_size":...}`. -/
  | audioEnd (voice emotion : String) (total_size : Nat)
deriving DecidableEq

/-- The `async for chunk in stream` loop of `text_to_speech_edge_stream`:
empty payloads are skipped, non-empty payloads are buffered, and once the
buffered size reaches `min_buffer_size` the buffer is drained, decoded, and
the raw bytes (when non-empty) forwarded as one frame.  Arguments after the
input list: the buffered chunks `mp3_chunks`, `buffer_size`, `total_size`.
Returns the forwarded frames and the final `(mp3_chunks, buffer_size,
total_size)`. -/
def feedChunks (decode : List Nat → List Nat) :
    List (List Nat) → List (List Nat) → Nat → Nat →
      List TtsEvent × List (List Nat) × Nat × Nat
  | [], mp3_chunks, buffer_size, total_size =>
    ([], mp3_chunks, buffer_size, total_size)
  | c :: rest, mp3_chunks, buffer_size, total_size =>
    if c = [] then feedChunks decode rest mp3_chunks buffer_size total_size
    else
      let mp3' := mp3_chunks ++ [c]
      let size' := buffer_size + c.length
      if min_buffer_size ≤ size' then
        let raw := decode mp3'.flatten
        if raw = [] then feedChunks decode rest [] 0 total_size
        else
          let r := feedChunks decode rest [] 0 (total_size + raw.length)
          (TtsEvent.audioFrame raw :: r.1, r.2)
      else feedChunks decode rest mp3' size' total_size

/-- The end-of-input flush: remaining buffered data is joined, decoded, and
forwarded when the decoded bytes are non-empty.  Returns the forwarded
frames and the final `total_size`. -/
def flushChunks (decode : List Nat → List Nat) (mp3_chunks : List (List Nat))
    (total_size : Nat) : List TtsEvent × Nat :=
  if mp3_chunks ≠ [] then
    let raw := decode mp3_chunks.flatten
    if raw = [] then ([], total_size)
    else ([TtsEvent.audioFrame raw], total_size + raw.length)
  else ([], total_size)

/-- `text_to_speech_edge_stream(text, voice, websocket, emotion)`: the event
trace of one streaming synthesis.  `currentVoice` models
`get_current_voice()`. -/
def text_to_speech_edge_stream (text : String) (voice currentVoice : Option String)
    (emotion : String) (chunks : List (List Nat)) (decode : List Nat → List Nat) :
    List TtsEvent :=
  if text = "" ∨ pyStrip text = "" then
    [TtsEvent.audioStart (voice.getD (currentVoice.getD TTS_DEFAULT_VOICE))
       emotion "pcm" 24000 1 16 true,
     TtsEvent.audioEnd (voice.getD (currentVoice.getD TTS_DEFAULT_VOICE)) emotion 0]
  else
    let voice_name := voice.getD (currentVoice.getD TTS_DEFAULT_VOICE)
    let fed := feedChunks decode chunks [] 0 0
    let flushed := flushChunks decode fed.2.1 fed.2.2.2
    TtsEvent.audioStart voice_name emotion "pcm" 24000 1 16 true ::
      (fed.1 ++ flushed.1 ++ [TtsEvent.audioEnd voice_name emotion flushed.2])

/-- The `synthesize` branch of `handle_tts_request` (Edge-TTS engine):
empty text is rejected with an error event; text that empties under
`process_text` yields the no-synthesis `audio_start`/`audio_end(0)` pair;
otherwise the cleaned text is streamed through
`text_to_speech_edge_stream`. -/
def handle_synthesize (text : String) (voice currentVoice : Option String)
    (chunks : List (List Nat)) (decode : List Nat → List Nat) : List TtsEvent :=
  if text = "" then [TtsEvent.errorMsg "文本内容为空"]
  else
    let pt := process_text text
    let cleaned_text := pt.1
    let emotion := pt.2
    if cleaned_text = "" ∨ pyStrip cleaned_text = "" then
      [TtsEvent.audioStart (voice.getD TTS_DEFAULT_VOICE) emotion "pcm" 24000 1 16 true,
       TtsEvent.audioEnd (voice.getD TTS_DEFAULT_VOICE) emotion 0]
    else
      text_to_speech_edge_stream cleaned_text voice currentVoice emotion chunks decode

/-! ### Recognition session (`python/asr/server.py`, `handle_audio`)

The per-connection message loop is modelled as a step function on the
session state.  The VOSK recognizers are external collaborators: the state
only records whether each recognizer object exists, and the outcome of
feeding one audio frame to a recognizer (`AcceptWaveform` plus
`Result()`/`PartialResult()`, or `FinalResult()` on stop) is supplied as an
oracle value carried by the message.  `use_bilingual` packages
`use_bilingual and en_model` from the source. -/

/-- Outcome of feeding one audio frame to one recognizer: a final result
dict, or an in-progress partial text. -/
inductive DecOut
  /-- `AcceptWaveform` returned true; carries the parsed `Result()` dict. -/
  | fin (r : RecResult)
  /-- `AcceptWaveform` returned false; carries the `partial` field of
  `PartialResult()`. -/
  | part (p : String)
deriving DecidableEq

/-- An event produced by the recognition session: a websocket send, or the
spawning of a chat-dispatch task (`asyncio.create_task(call_deepseek_api_stream ...)`). -/
inductive AsrEvent
  /-- `{"type":"ready"}`. -/
  | ready
  /-- `{"type":"partial","text":...}`. -/
  | partialText (text : String)
  /-- `{"type":"result","text":...}`. -/
  | result (text : String)
  /-- `{"type":"final","text":...}`. -/
  | finalText (text : String)
  /-- A chat-dispatch task spawned for a completed sentence. -/
  | dispatch (sentence : String)
deriving DecidableEq

/-- Per-connection session state: whether each recognizer object exists
(`current_cn_recognizer`/`current_en_recognizer` are not `None`), the
sentence manager, and whether the periodic silence-check task is running. -/
structure AsrSession where
  cnActive : Bool
  enActive : Bool
  sm : SentenceManager
  silenceTask : Bool
deriving DecidableEq

/-- The session state of a fresh connection: no recognizers, an empty
sentence manager, no silence-check task. -/
def initialSession (t0 : ℚ) : AsrSession :=
  ⟨false, false, ⟨"", t0⟩, false⟩

/-- A text control message, abstracted by its parse outcome. -/
inductive CtrlMsg
  /-- `{"type":"start"}`. -/
  | start
  /-- `{"type":"stop"}`. -/
  | stop
  /-- Valid JSON whose `type` is neither `start` nor `stop`. -/
  | other
  /-- A text frame that fails to parse as JSON (dropped after logging). -/
  | malformed
deriving DecidableEq

/-- An inbound message together with the recognizer oracle values the
source would obtain while handling it: for a binary frame, the outcome of
`AcceptWaveform` on each recognizer; for a `stop`, the `text` field of each
recognizer's `FinalResult()`. -/
inductive AsrMsg
  /-- A binary audio frame. -/
  | binary (cnOut enOut : DecOut)
  /-- A text frame. -/
  | text (c : CtrlMsg) (cnFinalText enFinalText : String)
deriving DecidableEq

/-- Handling of a binary audio frame (`isinstance(message, bytes)` branch):
missing recognizers are lazily instantiated, then the frame is decoded and
the bilingual (or Chinese-only) result path runs. -/
def stepBinary (useBilingual : Bool) (cnOut enOut : DecOut) (now : ℚ)
    (s : AsrSession) : AsrSession × List AsrEvent :=
  let enActive' := if useBilingual then true else s.enActive
  let cn_final : Bool := match cnOut with | DecOut.fin _ => true | DecOut.part _ => false
  let cn_result : Option RecResult :=
    match cnOut with | DecOut.fin r => some r | DecOut.part _ => none
  let cn_part : Option String :=
    match cnOut with | DecOut.fin _ => none | DecOut.part p => some p
  let r : SentenceManager × List AsrEvent :=
    if useBilingual then
      let en_final : Bool := match enOut with | DecOut.fin _ => true | DecOut.part _ => false
      let en_result : Option RecResult :=
        match enOut with | DecOut.fin r => some r | DecOut.part _ => none
      let en_part : Option String :=
        match enOut with | DecOut.fin _ => none | DecOut.part p => some p
      if cn_final = true ∨ en_final = true then
        match merge_results (cn_result.getD ⟨none, none⟩) (en_result.getD ⟨none, none⟩) with
        | some merged =>
          if merged.text.getD "" ≠ "" then
            let text := merged.text.getD ""
            let a := s.sm.add_text text now
            (a.1,
              AsrEvent.result text ::
                (match a.2 with
                 | some cs => [AsrEvent.dispatch cs]
                 | none => []))
          else (s.sm, [])
        | none => (s.sm, [])
      else
        if cn_part.getD "" ≠ "" ∨ en_part.getD "" ≠ "" then
          let partial_text :=
            if cn_part.getD "" ≠ "" then cn_part.getD "" else en_part.getD ""
          if partial_text ≠ "" then (s.sm, [AsrEvent.partialText partial_text])
          else (s.sm, [])
        else (s.sm, [])
    else
      if cn_final = true then
        let res := cn_result.getD ⟨none, none⟩
        if res.text.getD "" ≠ "" then
          let text := res.text.getD ""
          let a := s.sm.add_text text now
          (a.1,
            AsrEvent.result text ::
              (match a.2 with
               | some cs => [AsrEvent.dispatch cs]
               | none => []))
        else (s.sm, [])
      else
        if cn_part.getD "" ≠ "" then (s.sm, [AsrEvent.partialText (cn_part.getD "")])
        else (s.sm, [])
  (⟨true, enActive', r.1, s.silenceTask⟩, r.2)

/-- Handling of a `start` control message: recognizers are (re)created (the
English one only in bilingual mode), the sentence manager is reset, the
silence-check task is started if absent, and `ready` is sent. -/
def stepStart (useBilingual : Bool) (now : ℚ) (s : AsrSession) :
    AsrSession × List AsrEvent :=
  (⟨true, if useBilingual then true else s.enActive, ⟨"", now⟩, true⟩,
    [AsrEvent.ready])

/-- Handling of a `stop` control message: each existing recognizer is
flushed (`FinalResult()`), the texts merged, the result appended to the
sentence manager (force-finalizing any leftover buffer), the `final` event
sent, a dispatch spawned for a long-enough completed sentence, and the
session torn down (task cancelled, manager reset, recognizers released). -/
def stepStop (useBilingual : Bool) (cnFinalText enFinalText : String) (now : ℚ)
    (s : AsrSession) : AsrSession × List AsrEvent :=
  let final_text : Option String :=
    if s.cnActive then some cnFinalText else none
  let final_text : Option String :=
    if useBilingual ∧ s.enActive then
      if enFinalText ≠ "" then
        match merge_results
            (if final_text.getD "" ≠ "" then ⟨some (final_text.getD ""), none⟩
             else ⟨none, none⟩)
            ⟨some enFinalText, none⟩ with
        | some merged => some (merged.text.getD "")
        | none => final_text
      else final_text
    else final_text
  if final_text.getD "" ≠ "" then
    let ft := final_text.getD ""
    let r := s.sm.add_text ft now
    let complete : Option String :=
      match r.2 with
      | some cs => some cs
      | none =>
        if r.1.current_sentence ≠ "" then some (pyStrip r.1.current_sentence)
        else none
    (⟨false, false, ⟨"", now⟩, false⟩,
      AsrEvent.finalText ft ::
        (match complete with
         | some cs =>
           if ASR_MIN_SENTENCE_LENGTH ≤ cs.length then [AsrEvent.dispatch cs] else []
         | none => []))
  else
    (⟨false, false, ⟨"", now⟩, false⟩, [])

/-- One iteration of the `async for message in websocket` loop. -/
def stepMessage (useBilingual : Bool) (now : ℚ) (s : AsrSession) :
    AsrMsg → AsrSession × List AsrEvent
  | AsrMsg.binary cnOut enOut => stepBinary useBilingual cnOut enOut now s
  | AsrMsg.text CtrlMsg.start _ _ => stepStart useBilingual now s
  | AsrMsg.text CtrlMsg.stop cf ef => stepStop useBilingual cf ef now s
  | AsrMsg.text CtrlMsg.other _ _ => (s, [])
  | AsrMsg.text CtrlMsg.malformed _ _ => (s, [])

/-! ## Theorems -/

/-- Helper: the pattern loop of `add_text` on a buffer containing a
sentence-end mark clears the buffer and emits the stripped sentence exactly
when it is long enough. -/
theorem scanSentenceEnd_terminal (cs : String)
    (h : containsAnyOf ['。', '！', '？'] cs = true ∨
         containsAnyOf ['.', '!', '?'] cs = true) :
    scanSentenceEnd ASR_SENTENCE_END_PATTERNS cs =
      (if ASR_MIN_SENTENCE_LENGTH ≤ (pyStrip cs).length then some (pyStrip cs)
       else none, "") := by
  simp only [ASR_SENTENCE_END_PATTERNS]
  by_cases h1 : containsAnyOf ['。', '！', '？'] cs = true
  · rw [scanSentenceEnd, if_pos h1]
    by_cases hlen : ASR_MIN_SENTENCE_LENGTH ≤ (pyStrip cs).length
    · rw [if_pos hlen, if_pos hlen]
    · rw [if_neg hlen, if_neg hlen]
      decide
  · have h2 : containsAnyOf ['.', '!', '?'] cs = true := h.resolve_left h1
    rw [scanSentenceEnd, if_neg h1, scanSentenceEnd, if_pos h2]
    by_cases hlen : ASR_MIN_SENTENCE_LENGTH ≤ (pyStrip cs).length
    · rw [if_pos hlen, if_pos hlen]
    · rw [if_neg hlen, if_neg hlen]
      decide

/-- C1: for any accumulator state and non-empty fragment, as soon as the
concatenated buffer contains a configured terminal punctuation mark, that
`add_text` call leaves the buffer empty, and it returns exactly one
utterance — the stripped buffer contents — precisely when the stripped
length is at least `ASR_MIN_SENTENCE_LENGTH` (a shorter match is discarded
with the buffer already cleared). -/
theorem add_text_emits_on_terminal (sm : SentenceManager) (text : String) (now : ℚ)
    (hne : pyStrip text ≠ "")
    (hterm : containsSentenceEnd (bufferConcat sm.current_sentence text) = true) :
    ((sm.add_text text now).1.current_sentence = "") ∧
    ((sm.add_text text now).2 =
      if ASR_MIN_SENTENCE_LENGTH ≤
          (pyStrip (bufferConcat sm.current_sentence text)).length
      then some (pyStrip (bufferConcat sm.current_sentence text)) else none) := by
  have hguard : ¬(text = "" ∨ pyStrip text = "") := by
    rintro (h | h)
    · exact hne (by rw [h]; rfl)
    · exact hne h
  have hor : containsAnyOf ['。', '！', '？'] (bufferConcat sm.current_sentence text) = true ∨
      containsAnyOf ['.', '!', '?'] (bufferConcat sm.current_sentence text) = true := by
    simpa [containsSentenceEnd, ASR_SENTENCE_END_PATTERNS] using hterm
  unfold SentenceManager.add_text
  rw [if_neg hguard]
  simp only [scanSentenceEnd_terminal _ hor]
  exact ⟨by trivial, by trivial⟩

/-- Witness for C1 at a concrete input: appending `"你好。"` to an empty
buffer emits `"你好。"` and leaves the buffer empty. -/
theorem add_text_emits_on_terminal_witness :
    pyStrip "你好。" ≠ "" ∧
    containsSentenceEnd (bufferConcat "" "你好。") = true ∧
    ((((⟨"", 0⟩ : SentenceManager).add_text "你好。" 1).1.current_sentence = "") ∧
     ((((⟨"", 0⟩ : SentenceManager)).add_text "你好。" 1).2 =
       if ASR_MIN_SENTENCE_LENGTH ≤ (pyStrip (bufferConcat "" "你好。")).length
       then some (pyStrip (bufferConcat "" "你好。")) else none)) :=
  ⟨by decide, by decide,
    add_text_emits_on_terminal ⟨"", 0⟩ "你好。" 1 (by decide) (by decide)⟩

/-- Helper: `check_silence_timeout` on an empty buffer does nothing. -/
theorem check_silence_timeout_empty (s : SentenceManager) (t : ℚ)
    (hs : s.current_sentence = "") : s.check_silence_timeout t = (s, none) := by
  unfold SentenceManager.check_silence_timeout
  rw [if_pos hs]

/-- C2: when the buffer is non-empty and at least `ASR_SILENCE_TIMEOUT` has
elapsed since the last update, `check_silence_timeout` clears the buffer
and returns the stripped buffered text exactly when it is long enough; an
immediately following second call (at any time) returns no utterance. -/
theorem check_silence_timeout_emits_once (sm : SentenceManager) (now : ℚ)
    (hne : sm.current_sentence ≠ "")
    (hel : ASR_SILENCE_TIMEOUT ≤ now - sm.last_update_time) :
    ((sm.check_silence_timeout now).1.current_sentence = "") ∧
    ((sm.check_silence_timeout now).2 =
      if ASR_MIN_SENTENCE_LENGTH ≤ (pyStrip sm.current_sentence).length
      then some (pyStrip sm.current_sentence) else none) ∧
    (∀ now₂ : ℚ, ((sm.check_silence_timeout now).1.check_silence_timeout now₂).2 = none) := by
  have hmain : sm.check_silence_timeout now =
      (⟨"", sm.last_update_time⟩,
        if ASR_MIN_SENTENCE_LENGTH ≤ (pyStrip sm.current_sentence).length
        then some (pyStrip sm.current_sentence) else none) := by
    unfold SentenceManager.check_silence_timeout
    rw [if_neg hne, if_pos hel]
    by_cases hlen : ASR_MIN_SENTENCE_LENGTH ≤ (pyStrip sm.current_sentence).length
    · rw [if_pos hlen, if_pos hlen]
    · rw [if_neg hlen, if_neg hlen]
  rw [hmain]
  exact ⟨rfl, rfl, fun now₂ => by rw [check_silence_timeout_empty _ now₂ rfl]⟩

/-- Witness for C2 at a concrete input: buffer `"hello"` last updated at
time 0, checked at time 3. -/
theorem check_silence_timeout_emits_once_witness :
    ("hello" : String) ≠ "" ∧
    ASR_SILENCE_TIMEOUT ≤ (3 : ℚ) - 0 ∧
    ((((⟨"hello", 0⟩ : SentenceManager).check_silence_timeout 3).1.current_sentence = "") ∧
     (((⟨"hello", 0⟩ : SentenceManager).check_silence_timeout 3).2 =
       if ASR_MIN_SENTENCE_LENGTH ≤ (pyStrip "hello").length
       then some (pyStrip "hello") else none) ∧
     (∀ now₂ : ℚ,
       (((⟨"hello", 0⟩ : SentenceManager).check_silence_timeout 3).1.check_silence_timeout
          now₂).2 = none)) :=
  ⟨by decide, by norm_num [ASR_SILENCE_TIMEOUT],
    check_silence_timeout_emits_once ⟨"hello", 0⟩ 3 (by decide)
      (by norm_num [ASR_SILENCE_TIMEOUT])⟩

/-- Helper: the merger returns the primary unchanged when only the
secondary's trimmed text is empty. -/
theorem merge_results_en_empty (cn_result en_result : RecResult)
    (hc : pyStrip (cn_result.text.getD "") ≠ "")
    (he : pyStrip (en_result.text.getD "") = "") :
    merge_results cn_result en_result = some cn_result := by
  simp only [merge_results]
  rw [if_neg (fun h => hc h.1), if_neg hc, if_pos he]

/-- Helper: the marker branch of the merger, taken when a marker word is a
substring of the lowercased secondary text and the secondary confidence
clears the `0.7` bound. -/
theorem merge_results_marker_hit (cn_result en_result : RecResult)
    (hc : pyStrip (cn_result.text.getD "") ≠ "")
    (he : pyStrip (en_result.text.getD "") ≠ "")
    (hw : COMMON_ENGLISH_WORDS.any
        (fun word => strContainsSub (pyLower (pyStrip (en_result.text.getD ""))) word) = true)
    (hconf : en_result.confidence.getD 0 > cn_result.confidence.getD 0 * ((7 : ℚ)/10)) :
    merge_results cn_result en_result = some en_result := by
  simp only [merge_results]
  rw [if_neg (fun h => hc h.1), if_neg hc, if_neg he, if_pos ⟨hw, hconf⟩]

/-- Helper: the combining branch of the merger — no marker substring, the
primary confidence not dominant, and a short alphabetic secondary. -/
theorem merge_results_combines (cn_result en_result : RecResult)
    (hc : pyStrip (cn_result.text.getD "") ≠ "")
    (he : pyStrip (en_result.text.getD "") ≠ "")
    (hw : COMMON_ENGLISH_WORDS.any
        (fun word => strContainsSub (pyLower (pyStrip (en_result.text.getD ""))) word) = false)
    (hb : ¬(cn_result.confidence.getD 0 > en_result.confidence.getD 0 * ((7 : ℚ)/10)))
    (hsa : (pySplit (pyStrip (en_result.text.getD ""))).length ≤ 2 ∧
        pyIsAlpha (pyStrip (en_result.text.getD "")) = true) :
    merge_results cn_result en_result =
      some ⟨some (pyStrip (pyStrip (cn_result.text.getD "") ++ " " ++
              pyStrip (en_result.text.getD ""))),
            some (max (cn_result.confidence.getD 0) (en_result.confidence.getD 0))⟩ := by
  simp only [merge_results]
  rw [if_neg (fun h => hc h.1), if_neg hc, if_neg he, if_neg (by simp [hw]),
    if_neg hb, if_pos hsa, if_pos hc]

/-- Helper: the combining branch of the marker-free merger. -/
theorem merge_noMarker_combines (cn_result en_result : RecResult)
    (hc : pyStrip (cn_result.text.getD "") ≠ "")
    (he : pyStrip (en_result.text.getD "") ≠ "")
    (hb : ¬(cn_result.confidence.getD 0 > en_result.confidence.getD 0 * ((7 : ℚ)/10)))
    (hsa : (pySplit (pyStrip (en_result.text.getD ""))).length ≤ 2 ∧
        pyIsAlpha (pyStrip (en_result.text.getD "")) = true) :
    merge_noMarker cn_result en_result =
      some ⟨some (pyStrip (pyStrip (cn_result.text.getD "") ++ " " ++
              pyStrip (en_result.text.getD ""))),
            some (max (cn_result.confidence.getD 0) (en_result.confidence.getD 0))⟩ := by
  simp only [merge_noMarker]
  rw [if_neg (fun h => hc h.1), if_neg hc, if_neg he, if_neg hb, if_pos hsa, if_pos hc]

/-- C3: the three concrete merger evaluations given by the specification. -/
theorem merge_results_spec_examples :
    merge_results ⟨some "你好", some ((9 : ℚ)/10)⟩ ⟨some "", some 0⟩ =
      some ⟨some "你好", some ((9 : ℚ)/10)⟩ ∧
    merge_results ⟨some "打开", some ((5 : ℚ)/10)⟩ ⟨some "open", some ((9 : ℚ)/10)⟩ =
      some ⟨some "打开 open", some ((9 : ℚ)/10)⟩ ∧
    merge_results ⟨some "curl", some ((4 : ℚ)/10)⟩ ⟨some "curl", some ((6 : ℚ)/10)⟩ =
      some ⟨some "curl", some ((6 : ℚ)/10)⟩ := by
  refine ⟨?_, ?_, ?_⟩
  · exact merge_results_en_empty _ _ (by decide) (by decide)
  · refine (merge_results_combines ⟨some "打开", some ((5 : ℚ)/10)⟩
      ⟨some "open", some ((9 : ℚ)/10)⟩ (by decide) (by decide) (by decide)
      (by norm_num) (by decide)).trans ?_
    have ht : pyStrip (pyStrip ((some "打开").getD "") ++ " " ++
        pyStrip ((some "open").getD "")) = "打开 open" := by decide
    have hm : max ((some ((5 : ℚ)/10)).getD 0) ((some ((9 : ℚ)/10)).getD 0) =
        (9 : ℚ)/10 := max_eq_right (by norm_num)
    rw [show ((⟨some "打开", some ((5 : ℚ)/10)⟩ : RecResult)).text = some "打开" from rfl]
    simp only [Option.some.injEq, RecResult.mk.injEq]
    exact ⟨ht, hm⟩
  · exact merge_results_marker_hit ⟨some "curl", some ((4 : ℚ)/10)⟩
      ⟨some "curl", some ((6 : ℚ)/10)⟩ (by decide) (by decide) (by decide)
      (by norm_num)

/-- Counterexample for C4 as stated: with primary `打开@0.5` and secondary
`also@0.9`, no whitespace-separated token of the lowercased secondary text
is a marker word, yet the merger returns the secondary unchanged — the
marker rule fired on the substring `ls` inside `also`.  Without the marker
branch the same input would have produced the merged text `打开 also`, so
no other rule accounts for the result. -/
theorem merge_marker_token_cex :
    ((pySplit (pyLower "also")).all
      (fun t => !(COMMON_ENGLISH_WORDS.contains t))) = true ∧
    merge_results ⟨some "打开", some ((5 : ℚ)/10)⟩ ⟨some "also", some ((9 : ℚ)/10)⟩ =
      some ⟨some "also", some ((9 : ℚ)/10)⟩ ∧
    merge_noMarker ⟨some "打开", some ((5 : ℚ)/10)⟩ ⟨some "also", some ((9 : ℚ)/10)⟩ =
      some ⟨some "打开 also", some ((9 : ℚ)/10)⟩ := by
  refine ⟨by decide, ?_, ?_⟩
  · exact merge_results_marker_hit ⟨some "打开", some ((5 : ℚ)/10)⟩
      ⟨some "also", some ((9 : ℚ)/10)⟩ (by decide) (by decide) (by decide)
      (by norm_num)
  · refine (merge_noMarker_combines ⟨some "打开", some ((5 : ℚ)/10)⟩
      ⟨some "also", some ((9 : ℚ)/10)⟩ (by decide) (by decide) (by norm_num)
      (by decide)).trans ?_
    have ht : pyStrip (pyStrip ((some "打开").getD "") ++ " " ++
        pyStrip ((some "also").getD "")) = "打开 also" := by decide
    have hm : max ((some ((5 : ℚ)/10)).getD 0) ((some ((9 : ℚ)/10)).getD 0) =
        (9 : ℚ)/10 := max_eq_right (by norm_num)
    simp only [Option.some.injEq, RecResult.mk.injEq]
    exact ⟨ht, hm⟩

/-- C4 (amended): for two non-empty trimmed texts, the marker rule selects
the secondary exactly under the substring reading: if some marker word
occurs as a contiguous substring of the lowercased secondary text and
`sConf > pConf × 0.7`, the merger returns the secondary unchanged; if no
marker word occurs as a substring — or the confidence bound fails — the
result is exactly that of the marker-free rules. -/
theorem merge_marker_substring_rule (cn_result en_result : RecResult)
    (hc : pyStrip (cn_result.text.getD "") ≠ "")
    (he : pyStrip (en_result.text.getD "") ≠ "") :
    ((COMMON_ENGLISH_WORDS.any
        (fun word => strContainsSub (pyLower (pyStrip (en_result.text.getD ""))) word) = true ∧
      en_result.confidence.getD 0 > cn_result.confidence.getD 0 * ((7 : ℚ)/10)) →
        merge_results cn_result en_result = some en_result) ∧
    (COMMON_ENGLISH_WORDS.any
        (fun word => strContainsSub (pyLower (pyStrip (en_result.text.getD ""))) word) = false →
        merge_results cn_result en_result = merge_noMarker cn_result en_result) ∧
    (en_result.confidence.getD 0 ≤ cn_result.confidence.getD 0 * ((7 : ℚ)/10) →
        merge_results cn_result en_result = merge_noMarker cn_result en_result) := by
  have hcc : ¬(pyStrip (cn_result.text.getD "") = "" ∧
      pyStrip (en_result.text.getD "") = "") := fun h => hc h.1
  refine ⟨?_, ?_, ?_⟩
  · intro hcond
    unfold merge_results
    rw [if_neg hcc, if_neg hc, if_neg he, if_pos hcond]
  · intro hw
    unfold merge_results merge_noMarker
    rw [if_neg hcc, if_neg hc, if_neg he, if_neg hcc, if_neg hc, if_neg he]
    rw [if_neg (by simp [hw])]
  · intro hconf
    unfold merge_results merge_noMarker
    rw [if_neg hcc, if_neg hc, if_neg he, if_neg hcc, if_neg hc, if_neg he]
    rw [if_neg (fun h => absurd h.2 (not_lt.mpr hconf))]

/-- Witness for the amended C4 at a concrete input: `你好@1` versus
`curl@1` — `curl` is a marker substring and `1 > 1 × 0.7`, so the marker
rule returns the secondary. -/
theorem merge_marker_substring_rule_witness :
    pyStrip ((some "你好").getD "") ≠ "" ∧
    pyStrip ((some "curl").getD "") ≠ "" ∧
    ((COMMON_ENGLISH_WORDS.any
         (fun word => strContainsSub (pyLower (pyStrip ((some "curl").getD ""))) word) = true ∧
       ((some (1 : ℚ)).getD 0 : ℚ) > ((some (1 : ℚ)).getD 0 : ℚ) * ((7 : ℚ)/10)) →
         merge_results ⟨some "你好", some 1⟩ ⟨some "curl", some 1⟩ =
           some ⟨some "curl", some 1⟩) := by
  refine ⟨by decide, by decide, ?_⟩
  exact (merge_marker_substring_rule ⟨some "你好", some 1⟩ ⟨some "curl", some 1⟩
    (by decide) (by decide)).1

/-- Helper: on an error-free line stream the processing loop emits one chunk
event per non-empty delta (carrying the delta and the running
concatenation) and ends with a `full_text` event carrying the whole
concatenation. -/
theorem processLines_success (lines : List SseLine) (buffer : String)
    (hok : noErrorLine lines = true) :
    processLines lines buffer =
      chunkTrace buffer (deltasUpToDone lines) ++
        [AiEvent.streamEnd_full (concatFrom buffer (deltasUpToDone lines))] := by
  induction lines generalizing buffer with
  | nil => rfl
  | cons l rest ih =>
    cases l with
    | blank => exact ih buffer hok
    | notData => exact ih buffer hok
    | done => rfl
    | malformed => exact ih buffer hok
    | errorPayload msg => exact absurd hok (by simp [noErrorLine])
    | noChoices => exact ih buffer hok
    | delta content =>
      by_cases hc : content = ""
      · subst hc
        simpa [processLines, deltasUpToDone] using ih buffer hok
      · simp only [processLines, deltasUpToDone, if_pos hc, chunkTrace, concatFrom,
          List.cons_append]
        exact congrArg _ (ih (buffer ++ content) hok)

/-- C5: on the HTTP 200 path, when the line stream reaches completion (the
`[DONE]` sentinel or end of input) without an error payload, the dispatcher
sends exactly one stream-start event carrying the user input, then one
chunk event per non-empty delta carrying that delta and the concatenation
of all deltas received so far, then exactly one stream-end event whose
`full_text` is the concatenation of all non-empty deltas. -/
theorem ai_stream_success_trace (userInput : String) (lines : List SseLine)
    (hok : noErrorLine lines = true) :
    aiStream userInput lines =
      AiEvent.streamStart userInput ::
        (chunkTrace "" (deltasUpToDone lines) ++
         [AiEvent.streamEnd_full (concatFrom "" (deltasUpToDone lines))]) := by
  unfold aiStream
  rw [processLines_success lines "" hok]

/-- Witness for C5 at a concrete stream: two non-empty deltas, a blank
line, a malformed line, an empty delta, a `[DONE]`, and a delta after the
sentinel that is never consumed. -/
theorem ai_stream_success_trace_witness :
    noErrorLine [SseLine.blank, SseLine.delta "he", SseLine.malformed,
      SseLine.delta "", SseLine.delta "llo", SseLine.done, SseLine.delta "x"] = true ∧
    aiStream "hi" [SseLine.blank, SseLine.delta "he", SseLine.malformed,
        SseLine.delta "", SseLine.delta "llo", SseLine.done, SseLine.delta "x"] =
      [AiEvent.streamStart "hi", AiEvent.streamChunk "he" "he",
       AiEvent.streamChunk "llo" "hello", AiEvent.streamEnd_full "hello"] :=
  ⟨by decide,
    (ai_stream_success_trace "hi" [SseLine.blank, SseLine.delta "he", SseLine.malformed,
      SseLine.delta "", SseLine.delta "llo", SseLine.done, SseLine.delta "x"]
      (by decide)).trans (by decide)⟩

/-- Helper: the loop aborts at the first error payload, emitting only the
chunk events of the preceding deltas plus one error stream-end event. -/
theorem processLines_error (pre : List SseLine) (msg : String)
    (post : List SseLine) (buffer : String) (hpre : noDoneOrError pre = true) :
    processLines (pre ++ SseLine.errorPayload msg :: post) buffer =
      chunkTrace buffer (deltasUpToDone pre) ++
        [AiEvent.streamEnd_error ("API 错误: " ++ msg)] := by
  induction pre generalizing buffer with
  | nil => rfl
  | cons l rest ih =>
    cases l with
    | blank => exact ih buffer hpre
    | notData => exact ih buffer hpre
    | done => exact absurd hpre (by simp [noDoneOrError])
    | malformed => exact ih buffer hpre
    | errorPayload m => exact absurd hpre (by simp [noDoneOrError])
    | noChoices => exact ih buffer hpre
    | delta content =>
      by_cases hc : content = ""
      · subst hc
        simpa [processLines, deltasUpToDone] using ih buffer hpre
      · simp only [List.cons_append, processLines, deltasUpToDone, if_pos hc,
          chunkTrace]
        exact congrArg _ (ih (buffer ++ content) hpre)

/-- Helper: the specification-side chunk trace contains no stream-end
events. -/
theorem streamEnd_full_not_mem_chunkTrace (ds : List String) (acc x : String) :
    AiEvent.streamEnd_full x ∉ chunkTrace acc ds := by
  induction ds generalizing acc with
  | nil => simp [chunkTrace]
  | cons d ds ih =>
    simp only [chunkTrace, List.mem_cons]
    rintro (h | h)
    · exact AiEvent.noConfusion h
    · exact ih _ h

/-- C10: when the dispatcher reaches a data line whose JSON carries an
`error` key, it sends exactly one stream-end event carrying that error and
aborts: the trace consists of the start event, the chunk events of the
deltas already received, and the error stream-end — nothing for the lines
after the error line, and no stream-end with `full_text` anywhere. -/
theorem ai_stream_error_line_aborts (userInput msg : String)
    (pre post : List SseLine) (hpre : noDoneOrError pre = true) :
    (aiStream userInput (pre ++ SseLine.errorPayload msg :: post) =
      AiEvent.streamStart userInput ::
        (chunkTrace "" (deltasUpToDone pre) ++
         [AiEvent.streamEnd_error ("API 错误: " ++ msg)])) ∧
    (∀ x, AiEvent.streamEnd_full x ∉
      aiStream userInput (pre ++ SseLine.errorPayload msg :: post)) := by
  have htrace := processLines_error pre msg post "" hpre
  constructor
  · unfold aiStream
    rw [htrace]
  · intro x
    unfold aiStream
    rw [htrace]
    simp only [List.mem_cons, List.mem_append, List.mem_singleton]
    rintro (h | h | h | h)
    · exact AiEvent.noConfusion h
    · exact streamEnd_full_not_mem_chunkTrace _ _ _ h
    · exact AiEvent.noConfusion h
    · exact absurd h (List.not_mem_nil _)

/-- Witness for C10 at a concrete stream: one delta before the error line,
one after; the trace stops at the error stream-end. -/
theorem ai_stream_error_line_aborts_witness :
    noDoneOrError [SseLine.delta "a"] = true ∧
    aiStream "u" [SseLine.delta "a", SseLine.errorPayload "boom", SseLine.delta "b"] =
      [AiEvent.streamStart "u", AiEvent.streamChunk "a" "a",
       AiEvent.streamEnd_error "API 错误: boom"] :=
  ⟨by decide,
    ((ai_stream_error_line_aborts "u" "boom" [SseLine.delta "a"] [SseLine.delta "b"]
      (by decide)).1).trans (by decide)⟩

/-- Helper: the no-synthesis reply of the `synthesize` handler when the
cleaned text is empty. -/
theorem handle_synthesize_cleanup_empty (text : String)
    (voice currentVoice : Option String) (chunks : List (List Nat))
    (decode : List Nat → List Nat) (hne : text ≠ "")
    (hclean : pyStrip (process_text text).1 = "") :
    handle_synthesize text voice currentVoice chunks decode =
      [TtsEvent.audioStart (voice.getD TTS_DEFAULT_VOICE) (process_text text).2
         "pcm" 24000 1 16 true,
       TtsEvent.audioEnd (voice.getD TTS_DEFAULT_VOICE) (process_text text).2 0] := by
  simp only [handle_synthesize]
  rw [if_neg hne, if_pos (Or.inr hclean)]

/-- C6: a synthesize request whose text is non-empty but empties under
`process_text` cleanup produces exactly two events — the `audio_start`
describing the fixed PCM format (`pcm`, 24 kHz, mono, 16-bit, streaming)
followed immediately by `audio_end` with `total_size = 0` — with no binary
frame and no use of the synthesis engine or the decoder. -/
theorem synth_cleanup_empty_two_events (text : String)
    (voice currentVoice : Option String) (chunks : List (List Nat))
    (decode : List Nat → List Nat) (hne : text ≠ "")
    (hclean : pyStrip (process_text text).1 = "") :
    handle_synthesize text voice currentVoice chunks decode =
      [TtsEvent.audioStart (voice.getD TTS_DEFAULT_VOICE) (process_text text).2
         "pcm" 24000 1 16 true,
       TtsEvent.audioEnd (voice.getD TTS_DEFAULT_VOICE) (process_text text).2 0] :=
  handle_synthesize_cleanup_empty text voice currentVoice chunks decode hne hclean

/-- Witness for C6 at a concrete input: `"***"` is non-empty but cleans to
the empty string, and the handler emits the start/end pair only. -/
theorem synth_cleanup_empty_two_events_witness :
    ("***" : String) ≠ "" ∧
    pyStrip (process_text "***").1 = "" ∧
    handle_synthesize "***" none none [[1, 2]] (fun l => l) =
      [TtsEvent.audioStart ((none : Option String).getD TTS_DEFAULT_VOICE)
         (process_text "***").2 "pcm" 24000 1 16 true,
       TtsEvent.audioEnd ((none : Option String).getD TTS_DEFAULT_VOICE)
         (process_text "***").2 0] :=
  ⟨by decide, by decide,
    synth_cleanup_empty_two_events "***" none none [[1, 2]] (fun l => l)
      (by decide) (by decide)⟩

/-- Counterexample for C9 as stated: `"你好"` is non-empty and survives
cleanup unchanged, yet a synthesis run that yields no audio chunks
produces exactly the `audio_start`/`audio_end(total_size = 0)` pair — an
event trace identical to the no-synthesis reply — so that pair is not
produced only when cleanup empties the text. -/
theorem synth_pair_without_empty_cleanup_cex :
    pyStrip (process_text "你好").1 ≠ "" ∧
    handle_synthesize "你好" none none [] (fun l => l) =
      [TtsEvent.audioStart "zh-CN-XiaoxiaoNeural" "normal" "pcm" 24000 1 16 true,
       TtsEvent.audioEnd "zh-CN-XiaoxiaoNeural" "normal" 0] :=
  ⟨by decide, by decide⟩

/-- C9 (amended): a synthesize request whose original text is empty yields
exactly one `error` event and no audio events; a non-empty original that
empties under cleanup yields the no-synthesis `audio_start`/`audio_end(0)`
pair; and any reply beginning with `audio_start` implies the original text
was non-empty — but an identical pair can also arise from a synthesis
attempt that produces no audio, so the pair alone does not identify the
cleanup-empty case. -/
theorem synth_empty_text_error_paths (text : String)
    (voice currentVoice : Option String) (chunks : List (List Nat))
    (decode : List Nat → List Nat) :
    (text = "" → handle_synthesize text voice currentVoice chunks decode =
      [TtsEvent.errorMsg "文本内容为空"]) ∧
    (text ≠ "" → pyStrip (process_text text).1 = "" →
      handle_synthesize text voice currentVoice chunks decode =
        [TtsEvent.audioStart (voice.getD TTS_DEFAULT_VOICE) (process_text text).2
           "pcm" 24000 1 16 true,
         TtsEvent.audioEnd (voice.getD TTS_DEFAULT_VOICE) (process_text text).2 0]) ∧
    (∀ (v e f : String) (sr ch bp : Nat) (st : Bool) (evs : List TtsEvent),
      handle_synthesize text voice currentVoice chunks decode =
        TtsEvent.audioStart v e f sr ch bp st :: evs → text ≠ "") := by
  refine ⟨?_, ?_, ?_⟩
  · intro h
    subst h
    simp only [handle_synthesize]
    rw [if_pos trivial]
  · exact handle_synthesize_cleanup_empty text voice currentVoice chunks decode
  · intro v e f sr ch bp st evs heq htext
    subst htext
    rw [show handle_synthesize "" voice currentVoice chunks decode =
        [TtsEvent.errorMsg "文本内容为空"] from by
      simp only [handle_synthesize]; rw [if_pos trivial]] at heq
    injection heq with h1 _
    exact TtsEvent.noConfusion h1

/-- Witness for the amended C9 at a concrete input: the empty request text
yields exactly the error event. -/
theorem synth_empty_text_error_paths_witness :
    handle_synthesize "" none none [] (fun l => l) =
      [TtsEvent.errorMsg "文本内容为空"] :=
  (synth_empty_text_error_paths "" none none [] (fun l => l)).1 rfl

/-- Helper: `text_to_speech_edge_stream` on non-empty text unfolds to the
start event, the loop frames, the flush frames, and the end event. -/
theorem edge_stream_eq (text : String) (voice currentVoice : Option String)
    (emotion : String) (chunks : List (List Nat)) (decode : List Nat → List Nat)
    (hne : pyStrip text ≠ "") :
    text_to_speech_edge_stream text voice currentVoice emotion chunks decode =
      TtsEvent.audioStart (voice.getD (currentVoice.getD TTS_DEFAULT_VOICE))
          emotion "pcm" 24000 1 16 true ::
        ((feedChunks decode chunks [] 0 0).1 ++
         (flushChunks decode (feedChunks decode chunks [] 0 0).2.1
            (feedChunks decode chunks [] 0 0).2.2.2).1 ++
         [TtsEvent.audioEnd (voice.getD (currentVoice.getD TTS_DEFAULT_VOICE)) emotion
            (flushChunks decode (feedChunks decode chunks [] 0 0).2.1
               (feedChunks decode chunks [] 0 0).2.2.2).2]) := by
  have hg : ¬(text = "" ∨ pyStrip text = "") := by
    rintro (h | h)
    · exact hne (by rw [h]; rfl)
    · exact hne h
  simp only [text_to_speech_edge_stream]
  rw [if_neg hg]

/-- Helper: every event the feed loop emits is an `audioFrame`, and the
final running total equals the initial total plus the lengths of the
decoded frames it forwarded. -/
theorem feedChunks_frames (decode : List Nat → List Nat) (cs : List (List Nat)) :
    ∀ (mp3 : List (List Nat)) (size total : Nat),
      ∃ frames : List (List Nat),
        (feedChunks decode cs mp3 size total).1 = frames.map TtsEvent.audioFrame ∧
        (feedChunks decode cs mp3 size total).2.2.2 =
          total + (frames.map List.length).sum := by
  induction cs with
  | nil =>
    intro mp3 size total
    exact ⟨[], rfl, by simp [feedChunks]⟩
  | cons c rest ih =>
    intro mp3 size total
    by_cases hc : c = []
    · rw [show feedChunks decode (c :: rest) mp3 size total =
          feedChunks decode rest mp3 size total from by simp [feedChunks, hc]]
      exact ih mp3 size total
    · by_cases hth : min_buffer_size ≤ size + c.length
      · by_cases hraw : decode (mp3.flatten ++ c) = []
        · rw [show feedChunks decode (c :: rest) mp3 size total =
              feedChunks decode rest [] 0 total from by
            simp [feedChunks, hc, hth, hraw]]
          exact ih [] 0 total
        · have heq : feedChunks decode (c :: rest) mp3 size total =
              (TtsEvent.audioFrame (decode (mp3.flatten ++ c)) ::
                 (feedChunks decode rest [] 0
                   (total + (decode (mp3.flatten ++ c)).length)).1,
               (feedChunks decode rest [] 0
                   (total + (decode (mp3.flatten ++ c)).length)).2) := by
            simp [feedChunks, hc, hth, hraw]
          obtain ⟨frames, h1, h2⟩ :=
            ih [] 0 (total + (decode (mp3.flatten ++ c)).length)
          refine ⟨decode (mp3.flatten ++ c) :: frames, ?_, ?_⟩
          · rw [heq]
            simp [h1]
          · rw [heq]
            simp only [List.map_cons, List.sum_cons]
            rw [h2]
            omega
      · rw [show feedChunks decode (c :: rest) mp3 size total =
            feedChunks decode rest (mp3 ++ [c]) (size + c.length) total from by
          simp [feedChunks, hc, hth]]
        exact ih (mp3 ++ [c]) (size + c.length) total

/-- Helper: the feed loop maintains the invariant that the buffered size
stays below the decode threshold: whenever the buffer reaches the
threshold it is drained in the same step. -/
theorem feedChunks_buffer_lt (decode : List Nat → List Nat) (cs : List (List Nat)) :
    ∀ (mp3 : List (List Nat)) (size total : Nat), size < min_buffer_size →
      (feedChunks decode cs mp3 size total).2.2.1 < min_buffer_size := by
  induction cs with
  | nil =>
    intro mp3 size total hsz
    simpa [feedChunks] using hsz
  | cons c rest ih =>
    intro mp3 size total hsz
    by_cases hc : c = []
    · rw [show feedChunks decode (c :: rest) mp3 size total =
          feedChunks decode rest mp3 size total from by simp [feedChunks, hc]]
      exact ih mp3 size total hsz
    · by_cases hth : min_buffer_size ≤ size + c.length
      · by_cases hraw : decode (mp3.flatten ++ c) = []
        · rw [show feedChunks decode (c :: rest) mp3 size total =
              feedChunks decode rest [] 0 total from by
            simp [feedChunks, hc, hth, hraw]]
          exact ih [] 0 total (by decide)
        · have heq : feedChunks decode (c :: rest) mp3 size total =
              (TtsEvent.audioFrame (decode (mp3.flatten ++ c)) ::
                 (feedChunks decode rest [] 0
                   (total + (decode (mp3.flatten ++ c)).length)).1,
               (feedChunks decode rest [] 0
                   (total + (decode (mp3.flatten ++ c)).length)).2) := by
            simp [feedChunks, hc, hth, hraw]
          rw [heq]
          exact ih [] 0 (total + (decode (mp3.flatten ++ c)).length) (by decide)
      · rw [show feedChunks decode (c :: rest) mp3 size total =
            feedChunks decode rest (mp3 ++ [c]) (size + c.length) total from by
          simp [feedChunks, hc, hth]]
        exact ih (mp3 ++ [c]) (size + c.length) total (Nat.lt_of_not_le hth)

/-- C7: for a streaming synthesis over non-empty text, the event trace is
the PCM `audio_start`, a sequence of binary frames, and an `audio_end`
whose `total_size` is the sum of the lengths of exactly the frames
forwarded; the buffered compressed size never rests at or above the 8 KiB
threshold after any number of processed chunks (a decode-and-forward fires
whenever it is reached); and non-empty data buffered at end of input is
decoded and forwarded through the same step as the last frame before
`audio_end`. -/
theorem edge_stream_transcode_totals (text : String)
    (voice currentVoice : Option String) (emotion : String)
    (chunks : List (List Nat)) (decode : List Nat → List Nat)
    (hne : pyStrip text ≠ "") :
    (∃ frames : List (List Nat),
      text_to_speech_edge_stream text voice currentVoice emotion chunks decode =
        TtsEvent.audioStart (voice.getD (currentVoice.getD TTS_DEFAULT_VOICE))
            emotion "pcm" 24000 1 16 true ::
          (frames.map TtsEvent.audioFrame ++
           [TtsEvent.audioEnd (voice.getD (currentVoice.getD TTS_DEFAULT_VOICE))
              emotion ((frames.map List.length).sum)])) ∧
    (∀ n : Nat,
      (feedChunks decode (List.take n chunks) [] 0 0).2.2.1 < min_buffer_size) ∧
    ((feedChunks decode chunks [] 0 0).2.1 ≠ [] →
     decode ((feedChunks decode chunks [] 0 0).2.1).flatten ≠ [] →
     text_to_speech_edge_stream text voice currentVoice emotion chunks decode =
       TtsEvent.audioStart (voice.getD (currentVoice.getD TTS_DEFAULT_VOICE))
           emotion "pcm" 24000 1 16 true ::
         ((feedChunks decode chunks [] 0 0).1 ++
          [TtsEvent.audioFrame (decode ((feedChunks decode chunks [] 0 0).2.1).flatten),
           TtsEvent.audioEnd (voice.getD (currentVoice.getD TTS_DEFAULT_VOICE)) emotion
             ((feedChunks decode chunks [] 0 0).2.2.2 +
              (decode ((feedChunks decode chunks [] 0 0).2.1).flatten).length)])) := by
  obtain ⟨f1, hf1, ht1⟩ := feedChunks_frames decode chunks [] 0 0
  refine ⟨?_, ?_, ?_⟩
  · by_cases hmp : (feedChunks decode chunks [] 0 0).2.1 = []
    · refine ⟨f1, ?_⟩
      rw [edge_stream_eq text voice currentVoice emotion chunks decode hne, hf1,
        show flushChunks decode (feedChunks decode chunks [] 0 0).2.1
            (feedChunks decode chunks [] 0 0).2.2.2 =
          ([], (feedChunks decode chunks [] 0 0).2.2.2) from by
        simp [flushChunks, hmp]]
      rw [ht1]
      simp
    · by_cases hraw : decode ((feedChunks decode chunks [] 0 0).2.1).flatten = []
      · refine ⟨f1, ?_⟩
        rw [edge_stream_eq text voice currentVoice emotion chunks decode hne, hf1,
          show flushChunks decode (feedChunks decode chunks [] 0 0).2.1
              (feedChunks decode chunks [] 0 0).2.2.2 =
            ([], (feedChunks decode chunks [] 0 0).2.2.2) from by
          simp [flushChunks, hmp, hraw]]
        rw [ht1]
        simp
      · refine ⟨f1 ++ [decode ((feedChunks decode chunks [] 0 0).2.1).flatten], ?_⟩
        rw [edge_stream_eq text voice currentVoice emotion chunks decode hne, hf1,
          show flushChunks decode (feedChunks decode chunks [] 0 0).2.1
              (feedChunks decode chunks [] 0 0).2.2.2 =
            ([TtsEvent.audioFrame
                (decode ((feedChunks decode chunks [] 0 0).2.1).flatten)],
             (feedChunks decode chunks [] 0 0).2.2.2 +
               (decode ((feedChunks decode chunks [] 0 0).2.1).flatten).length) from by
          simp [flushChunks, hmp, hraw]]
        rw [ht1]
        simp [List.map_append]
  · intro n
    exact feedChunks_buffer_lt decode (List.take n chunks) [] 0 0 (by decide)
  · intro hmp hraw
    rw [edge_stream_eq text voice currentVoice emotion chunks decode hne,
      show flushChunks decode (feedChunks decode chunks [] 0 0).2.1
          (feedChunks decode chunks [] 0 0).2.2.2 =
        ([TtsEvent.audioFrame
            (decode ((feedChunks decode chunks [] 0 0).2.1).flatten)],
         (feedChunks decode chunks [] 0 0).2.2.2 +
           (decode ((feedChunks decode chunks [] 0 0).2.1).flatten).length) from by
      simp [flushChunks, hmp, hraw]]
    simp

/-- Witness for C7 at a concrete run: a 3-byte compressed stream never
reaches the threshold, is flushed at end of input as one frame, and the
end event totals that frame. -/
theorem edge_stream_transcode_totals_witness :
    pyStrip "hi" ≠ "" ∧
    text_to_speech_edge_stream "hi" none none "normal" [[1, 2, 3]] (fun l => l) =
      [TtsEvent.audioStart "zh-CN-XiaoxiaoNeural" "normal" "pcm" 24000 1 16 true,
       TtsEvent.audioFrame [1, 2, 3],
       TtsEvent.audioEnd "zh-CN-XiaoxiaoNeural" "normal" 3] ∧
    (∀ n : Nat,
      (feedChunks (fun l => l) (List.take n [[1, 2, 3]]) [] 0 0).2.2.1 <
        min_buffer_size) := by
  refine ⟨by decide, by decide, ?_⟩
  intro n
  exact (edge_stream_transcode_totals "hi" none none "normal" [[1, 2, 3]]
    (fun l => l) (by decide)).2.1 n

/-- Counterexample for C8 as stated: from the idle state of a fresh
connection (no `start` processed), a binary audio frame is not ignored —
the Chinese recognizer is instantiated and a `partial` event is emitted. -/
theorem idle_binary_not_ignored_cex :
    (stepMessage false 0 (initialSession 0)
      (AsrMsg.binary (DecOut.part "hello") (DecOut.part ""))).1.cnActive = true ∧
    (stepMessage false 0 (initialSession 0)
      (AsrMsg.binary (DecOut.part "hello") (DecOut.part ""))).2 =
      [AsrEvent.partialText "hello"] :=
  ⟨by decide, by decide⟩

/-- C8 (amended): while the session is idle, a malformed text frame or an
unrecognized control message is ignored without state change or events;
but a binary audio frame is not ignored — it lazily instantiates the
Chinese recognizer (and processes the frame as in the active state) while
leaving the silence-check task stopped; the `ready` event, recognizer
(re)creation and accumulator reset occur on a `start` control message. -/
theorem idle_step_behavior (useBilingual : Bool) (now : ℚ) (s : AsrSession)
    (_hcn : s.cnActive = false) (hen : s.enActive = false)
    (htask : s.silenceTask = false) :
    (∀ cf ef, stepMessage useBilingual now s (AsrMsg.text CtrlMsg.malformed cf ef) =
      (s, [])) ∧
    (∀ cf ef, stepMessage useBilingual now s (AsrMsg.text CtrlMsg.other cf ef) =
      (s, [])) ∧
    (∀ cnOut enOut,
      (stepMessage useBilingual now s (AsrMsg.binary cnOut enOut)).1.cnActive = true ∧
      (stepMessage useBilingual now s (AsrMsg.binary cnOut enOut)).1.silenceTask = false) ∧
    (∀ cf ef, stepMessage useBilingual now s (AsrMsg.text CtrlMsg.start cf ef) =
      (⟨true, useBilingual, ⟨"", now⟩, true⟩, [AsrEvent.ready])) := by
  refine ⟨fun cf ef => rfl, fun cf ef => rfl, ?_, ?_⟩
  · intro cnOut enOut
    exact ⟨rfl, by simpa [stepMessage, stepBinary] using htask⟩
  · intro cf ef
    have h0 : stepMessage useBilingual now s (AsrMsg.text CtrlMsg.start cf ef) =
        (⟨true, if useBilingual then true else s.enActive, ⟨"", now⟩, true⟩,
         [AsrEvent.ready]) := rfl
    rw [h0, hen]
    cases useBilingual <;> rfl

/-- Witness for the amended C8 at a concrete idle session. -/
theorem idle_step_behavior_witness :
    (initialSession 0).cnActive = false ∧
    stepMessage false 0 (initialSession 0) (AsrMsg.text CtrlMsg.malformed "" "") =
      (initialSession 0, []) ∧
    stepMessage false 0 (initialSession 0) (AsrMsg.text CtrlMsg.start "" "") =
      (⟨true, false, ⟨"", 0⟩, true⟩, [AsrEvent.ready]) := by
  refine ⟨rfl, ?_, ?_⟩
  · exact (idle_step_behavior false 0 (initialSession 0) rfl rfl rfl).1 "" ""
  · exact (idle_step_behavior false 0 (initialSession 0) rfl rfl rfl).2.2.2 "" ""

end VoicePipeline
